import Mathlib

/-!
# Verification of the NTP monitoring service (`update.py`)

Shallow embedding of the core of `update.py`: the per-probe NTP metric
arithmetic (`process_response`), the per-probe storage behaviour
(`query_ntp_server` / `process_response`), the per-cycle aggregation
(`ntp_monitoring_loop`), the scheduler sleep computation, and the two
read-only API queries (`get_realtime_data`, `get_history`).

Python floats are modelled as rationals (`ℚ`); the square root in
`statistics.stdev` lands in `ℝ`.  Wall-clock reads (`datetime.now(ist)`)
are modelled as explicit inputs: each probe carries the timestamp string
taken when it completed, and a cycle carries its start instant.
-/

namespace NtpMon

/-- One NTP exchange as seen by `process_response`: the four timestamps of
`ntplib`'s response plus the server-reported fields used in the insert. -/
structure Exchange where
  orig_time : ℚ        -- T1, client transmit
  recv_time : ℚ        -- T2, server receive
  tx_time : ℚ          -- T3, server transmit
  dest_time : ℚ        -- T4, client receive
  root_delay : ℚ
  root_dispersion : ℚ
  stratum : ℤ
  precision : ℤ        -- log2 precision exponent
  deriving DecidableEq, Repr

/-- `offset = ((T2 - T1) + (T3 - T4)) / 2 * 1000` (update.py line 124). -/
def offset (e : Exchange) : ℚ :=
  ((e.recv_time - e.orig_time) + (e.tx_time - e.dest_time)) / 2 * 1000

/-- `delay = ((T4 - T1) - (T3 - T2)) * 1000` (update.py line 125). -/
def delay (e : Exchange) : ℚ :=
  ((e.dest_time - e.orig_time) - (e.tx_time - e.recv_time)) * 1000

/-- `response_time = (T3 - T2) * 1000` (update.py line 128). -/
def response_time (e : Exchange) : ℚ :=
  (e.tx_time - e.recv_time) * 1000

/-- `precision = (2 ** response.precision) * 1000` (update.py line 134). -/
def precision_ms (e : Exchange) : ℚ :=
  (2 : ℚ) ^ e.precision * 1000

/-- Spec-side formula: "`offsetMs = ((T2 - T1) + (T3 - T4)) / 2`, converted
to milliseconds" (spec §4.1). -/
def specOffsetMs (T1 T2 T3 T4 : ℚ) : ℚ :=
  ((T2 - T1) + (T3 - T4)) / 2 * 1000

/-- Spec-side formula: "`delayMs = (T4 - T1) - (T3 - T2)`, converted to
milliseconds" (spec §4.1), with no clamping. -/
def specDelayMs (T1 T2 T3 T4 : ℚ) : ℚ :=
  ((T4 - T1) - (T3 - T2)) * 1000

/-- Spec-side formula: "`responseTimeMs == (T3 - T2) * 1000` exactly"
(spec §8). -/
def specResponseTimeMs (T2 T3 : ℚ) : ℚ :=
  (T3 - T2) * 1000

/-- One row of the `ntp_data` table / one persisted TimeSample, with the
columns of the schema in `init_db` (update.py lines 53-65).  `id` is the
AUTOINCREMENT primary key; it is absent at insert time and is carried only
by `Row` below. -/
structure Sample where
  timestamp : String
  server : String
  offset_ms : ℚ
  delay_ms : ℚ
  root_delay_ms : ℚ
  root_dispersion_ms : ℚ
  stratum : ℤ
  response_time_ms : ℚ
  precision_ms : ℚ
  status : String
  deriving DecidableEq, Repr

/-- The Error-status row inserted by the `except` branch of
`query_ntp_server` (update.py line 101): every numeric field is the
sentinel `0` and the status is `"Error"`. -/
def errorSample (timestamp server : String) : Sample :=
  ⟨timestamp, server, 0, 0, 0, 0, 0, 0, 0, "Error"⟩

/-- The Online-status row inserted by `process_response`
(update.py lines 124-145). -/
def onlineSample (timestamp server : String) (e : Exchange) : Sample :=
  ⟨timestamp, server, offset e, delay e, e.root_delay * 1000,
    e.root_dispersion * 1000, e.stratum, response_time e,
    precision_ms e, "Online"⟩

/-- The input of one probe: the server name, the wall-clock instant at
which the probe completed or failed (`datetime.now(ist)` taken inside
`query_ntp_server`), and the NTP response — `none` when the request threw. -/
structure ProbeOutcome where
  server : String
  now : String
  resp : Option Exchange
  deriving DecidableEq, Repr

/-- The success payload of `query_ntp_server`: the dict
`{server, response, timestamp}` (update.py lines 86-90). -/
structure SuccessData where
  server : String
  response : Exchange
  timestamp : String
  deriving DecidableEq, Repr

/-- `query_ntp_server` (update.py lines 81-104), with its storage effect
made explicit: it returns its Python return value together with the list
of rows it appends to the store.  On success it returns the data dict and
appends nothing; on failure it returns `None` after itself inserting the
Error row. -/
def query_ntp_server (p : ProbeOutcome) : Option SuccessData × List Sample :=
  match p.resp with
  | some e => (some ⟨p.server, e, p.now⟩, [])
  | none => (none, [errorSample p.now p.server])

/-- `process_response` (update.py lines 109-149), with its storage effect
made explicit: given `query_ntp_server`'s return value it returns the
`{offset, delay}` result dict (or `None`) together with the rows it
appends. -/
def process_response (d : Option SuccessData) : Option (ℚ × ℚ) × List Sample :=
  match d with
  | none => (none, [])
  | some d =>
      (some (offset d.response, delay d.response),
        [onlineSample d.timestamp d.server d.response])

/-- The rows appended to the store on behalf of one probe: those of
`query_ntp_server` followed by those of `process_response` applied to its
result — the per-probe storage path of `ntp_monitoring_loop`
(update.py lines 163-166). -/
def probeAppends (p : ProbeOutcome) : List Sample :=
  (query_ntp_server p).2 ++ (process_response (query_ntp_server p).1).2

/-- All rows appended during one cycle, in processing order: every probe of
the roster is processed and contributes its appends
(update.py lines 162-169). -/
def cycleAppends (ps : List ProbeOutcome) : List Sample :=
  ps.flatMap probeAppends

/-- The result dict collected by the loop for one probe: the value of
`process_response(query_ntp_server(server))` — `some (offset, delay)` for
an Online probe, `none` for a failed one (update.py lines 163-166). -/
def probeResult (p : ProbeOutcome) : Option (ℚ × ℚ) :=
  (process_response (query_ntp_server p).1).1

/-- The `delays` list built by the loop: `result['delay']` for every probe
whose result is truthy (update.py lines 158, 167-168). -/
def cycleDelays (ps : List ProbeOutcome) : List ℚ :=
  ps.filterMap fun p => (probeResult p).map Prod.snd

/-- The `offsets` list built by the loop: `result['offset']` for every
probe whose result is truthy (update.py lines 159, 167-169). -/
def cycleOffsets (ps : List ProbeOutcome) : List ℚ :=
  ps.filterMap fun p => (probeResult p).map Prod.fst

/-- `statistics.mean` on exact rationals. -/
def mean (xs : List ℚ) : ℚ := xs.sum / xs.length

/-- The square of `statistics.stdev`: the sample variance
`Σ (x - x̄)² / (n - 1)`. -/
def sampleVariance (xs : List ℚ) : ℚ :=
  (xs.map fun x => (x - mean xs) ^ 2).sum / ((xs.length : ℚ) - 1)

/-- `statistics.stdev`: the square root of the sample variance. -/
noncomputable def stdev (xs : List ℚ) : ℝ :=
  Real.sqrt ((sampleVariance xs : ℚ) : ℝ)

/-- `jitter = stdev(delays) if len(delays) > 1 else 0`
(update.py lines 172-176). -/
noncomputable def cycleJitter (ps : List ProbeOutcome) : ℝ :=
  if 1 < (cycleDelays ps).length then stdev (cycleDelays ps) else 0

/-- `offset_mean = mean(offsets) if len(delays) > 1 else
(offsets[0] if offsets else 0)` (update.py lines 172-177). -/
def cycleMeanOffset (ps : List ProbeOutcome) : ℚ :=
  if 1 < (cycleDelays ps).length then mean (cycleOffsets ps)
  else (cycleOffsets ps).headD 0

/-- Spec-side formula: the sample standard deviation of a list of reals,
`sqrt (Σ (x - x̄)² / (n - 1))` ("standard deviation of delayMs", spec
§4.3/§8). -/
noncomputable def specSampleStdev (xs : List ℝ) : ℝ :=
  Real.sqrt ((xs.map fun x => (x - xs.sum / xs.length) ^ 2).sum /
    ((xs.length : ℝ) - 1))

/-- A concrete two-server cycle whose Online delays are 10 ms and 20 ms:
`delay` is 10 for `T4 - T1 = 1/100` and 20 for `T4 - T1 = 1/50` (with
`T2 = T3`). -/
def twoOnlineCycle : List ProbeOutcome :=
  [⟨"a", "t1", some ⟨0, 0, 0, 1/100, 0, 0, 0, 0⟩⟩,
   ⟨"b", "t2", some ⟨0, 0, 0, 1/50, 0, 0, 0, 0⟩⟩]

end NtpMon

namespace NtpMon

/-- C1: for every successful exchange the computed metrics equal the spec's
closed-form formulas — `offsetMs = ((T2-T1)+(T3-T4))/2 * 1000`,
`delayMs = ((T4-T1)-(T3-T2)) * 1000` with no clamping (a witness exchange
has negative `delayMs`), and `responseTimeMs = (T3-T2) * 1000` exactly. -/
theorem metrics_match_closed_forms :
    (∀ e : Exchange,
        offset e = specOffsetMs e.orig_time e.recv_time e.tx_time e.dest_time ∧
        delay e = specDelayMs e.orig_time e.recv_time e.tx_time e.dest_time ∧
        response_time e = specResponseTimeMs e.recv_time e.tx_time) ∧
    (∃ e : Exchange, delay e < 0) := by
  refine ⟨fun e => ⟨rfl, rfl, rfl⟩, ⟨⟨0, 1, 2, 0, 0, 0, 0, 0⟩, by norm_num [delay]⟩⟩

/-- Each probe contributes exactly one appended row: the Error row on
failure, the Online row on success. -/
theorem probeAppends_eq (p : ProbeOutcome) :
    probeAppends p =
      [match p.resp with
       | none => errorSample p.now p.server
       | some e => onlineSample p.now p.server e] := by
  cases h : p.resp <;> simp [probeAppends, query_ntp_server, process_response, h]

/-- C4: every probe of a cycle appends exactly one TimeSample, success or
failure — the appended rows' servers are exactly the probed servers, in
order; on failure the appended row is the Error row, whose numeric fields
are all the sentinel zero. -/
theorem one_sample_per_server_per_cycle :
    (∀ ps : List ProbeOutcome,
        (cycleAppends ps).map Sample.server = ps.map ProbeOutcome.server) ∧
    (∀ p : ProbeOutcome, p.resp = none →
        probeAppends p = [errorSample p.now p.server]) ∧
    (∀ t s : String, (errorSample t s).offset_ms = 0 ∧
        (errorSample t s).delay_ms = 0 ∧ (errorSample t s).root_delay_ms = 0 ∧
        (errorSample t s).root_dispersion_ms = 0 ∧ (errorSample t s).stratum = 0 ∧
        (errorSample t s).response_time_ms = 0 ∧
        (errorSample t s).precision_ms = 0 ∧ (errorSample t s).status = "Error") := by
  refine ⟨fun ps => ?_, fun p h => ?_, fun t s => ?_⟩
  · induction ps with
    | nil => rfl
    | cons p ps ih =>
        simp only [cycleAppends, List.flatMap_cons, List.map_append, List.map_cons,
          probeAppends_eq p] at *
        cases h : p.resp <;> simp [h, errorSample, onlineSample, ih]
  · rw [probeAppends_eq, h]
  · exact ⟨rfl, rfl, rfl, rfl, rfl, rfl, rfl, rfl⟩

/-- Witness for C4 at a one-server roster whose probe failed. -/
theorem one_sample_per_server_per_cycle_witness :
    probeAppends ⟨"a", "t", none⟩ = [errorSample "t" "a"] ∧
    (cycleAppends [⟨"a", "t", none⟩]).map Sample.server = ["a"] :=
  ⟨one_sample_per_server_per_cycle.2.1 ⟨"a", "t", none⟩ rfl,
    by rw [one_sample_per_server_per_cycle.1]; rfl⟩

/-- C6 counterexample: on a failed probe, `query_ntp_server` itself writes
to storage — its append list is nonempty (update.py lines 95-103), so the
prober is not free of storage effects. -/
theorem prober_never_writes_counterexample :
    (query_ntp_server ⟨"a", "t", none⟩).2 ≠ [] := by
  simp [query_ntp_server]

/-- C6 amended: the prober writes nothing to storage on success; on failure
it is the prober itself, not the aggregation path, that appends the
Error TimeSample for that server. -/
theorem prober_writes_only_on_failure :
    ∀ p : ProbeOutcome,
      (∀ e : Exchange, p.resp = some e → (query_ntp_server p).2 = []) ∧
      (p.resp = none → (query_ntp_server p).2 = [errorSample p.now p.server]) := by
  intro p
  constructor
  · intro e h; simp [query_ntp_server, h]
  · intro h; simp [query_ntp_server, h]

/-- Witness for the amended C6 at one successful and one failed probe. -/
theorem prober_writes_only_on_failure_witness :
    (query_ntp_server ⟨"a", "t", some ⟨0, 0, 0, 0, 0, 0, 0, 0⟩⟩).2 = [] ∧
    (query_ntp_server ⟨"b", "u", none⟩).2 = [errorSample "u" "b"] :=
  ⟨(prober_writes_only_on_failure _).1 ⟨0, 0, 0, 0, 0, 0, 0, 0⟩ rfl,
    (prober_writes_only_on_failure _).2 rfl⟩

/-- The `delays` list holds exactly the `delay` of each Online probe. -/
theorem cycleDelays_eq (ps : List ProbeOutcome) :
    cycleDelays ps = (ps.filterMap ProbeOutcome.resp).map delay := by
  induction ps with
  | nil => rfl
  | cons p ps ih =>
      cases h : p.resp <;>
        simpa [cycleDelays, probeResult, process_response, query_ntp_server, h]
          using ih

/-- The `offsets` list holds exactly the `offset` of each Online probe. -/
theorem cycleOffsets_eq (ps : List ProbeOutcome) :
    cycleOffsets ps = (ps.filterMap ProbeOutcome.resp).map offset := by
  induction ps with
  | nil => rfl
  | cons p ps ih =>
      cases h : p.resp <;>
        simpa [cycleOffsets, probeResult, process_response, query_ntp_server, h]
          using ih

/-- `delays` and `offsets` grow in lock-step. -/
theorem length_cycleDelays_eq (ps : List ProbeOutcome) :
    (cycleDelays ps).length = (cycleOffsets ps).length := by
  rw [cycleDelays_eq, cycleOffsets_eq, List.length_map, List.length_map]

/-- Casting the exact-rational stdev to the spec's real-valued sample
standard deviation. -/
theorem stdev_eq_specSampleStdev (xs : List ℚ) :
    stdev xs = specSampleStdev (xs.map fun q : ℚ => (q : ℝ)) := by
  unfold stdev specSampleStdev
  congr 1
  have hsum : ((xs.map fun q : ℚ => (q : ℝ))).sum = ((xs.sum : ℚ) : ℝ) :=
    (Rat.cast_list_sum xs).symm
  have hpt : ∀ x : ℚ, (((x - mean xs) ^ 2 : ℚ) : ℝ) =
      ((x : ℝ) - ((xs.sum : ℚ) : ℝ) / (xs.length : ℝ)) ^ 2 := by
    intro x
    rw [mean]
    push_cast
    ring
  rw [sampleVariance, Rat.cast_div, Rat.cast_list_sum, List.map_map]
  simp only [List.length_map, hsum, List.map_map, Function.comp_def]
  simp only [hpt]
  congr 1
  push_cast
  ring

end NtpMon

namespace NtpMon

/-- C2: `jitterMs` is the sample standard deviation of `delayMs` over the
Online samples only (the `delays` list collects exactly the Online probes'
delays), it is 0 whenever fewer than 2 probes were Online, and on a cycle
with Online delays 10 ms and 20 ms it equals `√50` ≈ 7.071 ms. -/
theorem jitter_is_sample_stdev_of_online_delays :
    (∀ ps : List ProbeOutcome,
        cycleDelays ps = (ps.filterMap ProbeOutcome.resp).map delay) ∧
    (∀ ps : List ProbeOutcome,
        (cycleDelays ps).length < 2 → cycleJitter ps = 0) ∧
    (∀ ps : List ProbeOutcome, 2 ≤ (cycleDelays ps).length →
        cycleJitter ps = specSampleStdev ((cycleDelays ps).map fun q : ℚ => (q : ℝ))) ∧
    (cycleDelays twoOnlineCycle = [10, 20] ∧
      cycleJitter twoOnlineCycle = Real.sqrt 50 ∧
      (7.071 : ℝ) < cycleJitter twoOnlineCycle ∧
      cycleJitter twoOnlineCycle < 7.072) := by
  have hd : cycleDelays twoOnlineCycle = [10, 20] := by
    rw [cycleDelays_eq]
    norm_num [twoOnlineCycle, delay, List.filterMap_cons]
  have hj : cycleJitter twoOnlineCycle = Real.sqrt 50 := by
    have hv : sampleVariance [10, 20] = 50 := by
      norm_num [sampleVariance, mean]
    rw [cycleJitter, hd, if_pos (by norm_num), stdev, hv]
    norm_num
  refine ⟨cycleDelays_eq, fun ps h => ?_, fun ps h => ?_, hd, hj, ?_, ?_⟩
  · rw [cycleJitter, if_neg (by omega)]
  · rw [cycleJitter, if_pos (by omega), stdev_eq_specSampleStdev]
  · rw [hj, show (7.071 : ℝ) = 7071 / 1000 by norm_num]
    rw [Real.lt_sqrt (by norm_num)]
    norm_num
  · rw [hj]
    rw [Real.sqrt_lt' (by norm_num)]
    norm_num

/-- Witness for C2: a zero-Online cycle has jitter 0, and the two-Online
cycle realizes the stdev formula. -/
theorem jitter_is_sample_stdev_witness :
    cycleJitter [] = 0 ∧
    cycleJitter twoOnlineCycle =
      specSampleStdev ((cycleDelays twoOnlineCycle).map fun q : ℚ => (q : ℝ)) :=
  ⟨jitter_is_sample_stdev_of_online_delays.2.1 [] (by decide),
    jitter_is_sample_stdev_of_online_delays.2.2.1 twoOnlineCycle (by decide)⟩

/-- C3: `meanOffsetMs` is the arithmetic mean of `offsetMs` over the Online
samples of the cycle (the `offsets` list collects exactly the Online
probes' offsets) — including the single-sample case — and is 0 when no
probe was Online. -/
theorem mean_offset_is_mean_of_online_offsets :
    (∀ ps : List ProbeOutcome,
        cycleOffsets ps = (ps.filterMap ProbeOutcome.resp).map offset) ∧
    (∀ ps : List ProbeOutcome,
        cycleOffsets ps = [] → cycleMeanOffset ps = 0) ∧
    (∀ ps : List ProbeOutcome,
        cycleOffsets ps ≠ [] → cycleMeanOffset ps = mean (cycleOffsets ps)) := by
  refine ⟨cycleOffsets_eq, fun ps h => ?_, fun ps h => ?_⟩
  · rw [cycleMeanOffset]
    have hl : (cycleDelays ps).length = 0 := by
      rw [length_cycleDelays_eq, h]; rfl
    rw [if_neg (by omega), h]; rfl
  · rw [cycleMeanOffset]
    by_cases hlen : 1 < (cycleDelays ps).length
    · rw [if_pos hlen]
    · rw [if_neg hlen]
      have h1 : (cycleOffsets ps).length = 1 := by
        have := length_cycleDelays_eq ps
        have h0 : cycleOffsets ps ≠ [] := h
        have : (cycleOffsets ps).length ≤ 1 := by omega
        have : 0 < (cycleOffsets ps).length := List.length_pos.mpr h0
        omega
      obtain ⟨o, ho⟩ : ∃ o, cycleOffsets ps = [o] :=
        List.length_eq_one.mp h1
      rw [ho]
      simp [mean]

/-- Witness for C3 at the empty cycle and the two-Online cycle. -/
theorem mean_offset_is_mean_witness :
    cycleMeanOffset [] = 0 ∧
    cycleMeanOffset twoOnlineCycle = mean (cycleOffsets twoOnlineCycle) :=
  ⟨mean_offset_is_mean_of_online_offsets.2.1 [] rfl,
    mean_offset_is_mean_of_online_offsets.2.2 twoOnlineCycle (by decide)⟩

end NtpMon

namespace NtpMon

/-- Worker-phase appends of one cycle against a fallible store.  Each
failed probe's Error INSERT (update.py lines 95-103) runs inside that
probe's own worker thread at probe time, independently of the monitoring
loop; the `with ThreadPoolExecutor(...)` block shuts down with wait, so
every submitted worker runs to completion even when the loop later dies.
`sinkOk server` tells whether the INSERT of that server's sample succeeds;
a failed probe whose own INSERT raises commits nothing, and its exception
is stored in the future. -/
def workerAppends (ps : List ProbeOutcome) (sinkOk : String → Bool) :
    List Sample :=
  ps.filterMap fun p =>
    match p.resp with
    | none => if sinkOk p.server then some (errorSample p.now p.server) else none
    | some _ => none

/-- Main-loop appends and abort flag of one cycle against a fallible store.
The `as_completed` loop (update.py lines 164-169) handles futures in
completion order: for a failed probe, `future.result()` re-raises the
worker's INSERT exception; for a successful probe, `process_response`
performs the Online INSERT (lines 138-147).  No INSERT is wrapped in a
try/except, so the loop aborts at the first probe whose INSERT failed;
Online rows of successful probes handled before that point are committed,
later ones never are. -/
def loopAppends : List ProbeOutcome → (String → Bool) → List Sample × Bool
  | [], _ => ([], false)
  | p :: rest, sinkOk =>
      if sinkOk p.server then
        match p.resp with
        | some e =>
            (onlineSample p.now p.server e :: (loopAppends rest sinkOk).1,
              (loopAppends rest sinkOk).2)
        | none => loopAppends rest sinkOk
      else ([], true)

/-- One cycle of `ntp_monitoring_loop` against a fallible store: the rows
committed by the worker threads, the rows committed by the monitoring
loop, and whether the loop aborted.  The two commit streams are concurrent
in the code; their interleaving is not ordered here. -/
def processCycle (ps : List ProbeOutcome) (sinkOk : String → Bool) :
    List Sample × List Sample × Bool :=
  (workerAppends ps sinkOk, loopAppends ps sinkOk)

/-- C5 counterexample: server `"a"`'s probe succeeds but its Online INSERT
fails, then server `"b"`'s probe succeeds.  The loop aborts at `"a"` (flag
`true`) and commits nothing — in particular server `"b"`'s sample is never
appended, contradicting "does not abort the cycle and does not prevent the
samples of the other servers in the same cycle from being appended". -/
theorem sink_failure_nonfatal_counterexample :
    processCycle
        [⟨"a", "t", some ⟨0, 0, 0, 0, 0, 0, 0, 0⟩⟩,
         ⟨"b", "u", some ⟨0, 0, 0, 0, 0, 0, 0, 0⟩⟩]
        (fun s => s != "a") =
      ([], [], true) := rfl

/-- C5 amended: a storage-append failure is fatal to the monitoring loop —
the first failing INSERT surfacing in the loop aborts the cycle; the
Online rows of exactly the successful probes handled strictly before that
point are committed by the loop, while the Error row of every failed probe
whose own INSERT succeeds is committed by its worker thread regardless of
the abort. -/
theorem sink_failure_aborts_cycle (ps : List ProbeOutcome)
    (sinkOk : String → Bool) :
    ((processCycle ps sinkOk).2.2 = ps.any fun p => !sinkOk p.server) ∧
    ((processCycle ps sinkOk).2.1 =
      (ps.takeWhile fun p => sinkOk p.server).filterMap fun p =>
        p.resp.map fun e => onlineSample p.now p.server e) ∧
    (∀ p ∈ ps, p.resp = none → sinkOk p.server = true →
      errorSample p.now p.server ∈ (processCycle ps sinkOk).1) := by
  refine ⟨?_, ?_, fun p hp h1 h2 => ?_⟩
  · show (loopAppends ps sinkOk).2 = _
    induction ps with
    | nil => rfl
    | cons p rest ih =>
        by_cases h : sinkOk p.server
        · cases hr : p.resp <;> simp [loopAppends, h, hr, ih]
        · simp [loopAppends, h]
  · show (loopAppends ps sinkOk).1 = _
    induction ps with
    | nil => rfl
    | cons p rest ih =>
        by_cases h : sinkOk p.server
        · cases hr : p.resp <;>
            simp [loopAppends, h, hr, List.takeWhile_cons, ih]
        · simp [loopAppends, h, List.takeWhile_cons]
  · show _ ∈ workerAppends ps sinkOk
    exact List.mem_filterMap.mpr ⟨p, hp, by simp [h1, h2]⟩

/-- Witness for the amended C5: in a two-failed-probe cycle whose store
rejects only server `"a"`'s INSERT, the loop aborts, yet server `"b"`'s
Error row — committed by its own worker thread — is among the worker
appends. -/
theorem sink_failure_aborts_cycle_witness :
    errorSample "u" "b" ∈
      (processCycle [⟨"a", "t", none⟩, ⟨"b", "u", none⟩]
        (fun s => s != "a")).1 ∧
    (processCycle [⟨"a", "t", none⟩, ⟨"b", "u", none⟩]
        (fun s => s != "a")).2.2 = true :=
  ⟨(sink_failure_aborts_cycle _ _).2.2 ⟨"b", "u", none⟩ (by decide) rfl
      (by decide),
    by rw [(sink_failure_aborts_cycle _ _).1]; rfl⟩

/-- C7 counterexample: two probes of one cycle complete at distinct instants
`"t1"` and `"t2"`; their stored timestamps differ, so the recorded
timestamp is not one shared cycle-start value. -/
theorem cycle_timestamp_counterexample :
    (cycleAppends [⟨"a", "t1", none⟩, ⟨"b", "t2", none⟩]).map Sample.timestamp =
      ["t1", "t2"] ∧ ("t1" : String) ≠ "t2" := by
  exact ⟨rfl, by decide⟩

/-- C7 amended: the timestamp recorded in each TimeSample is the wall-clock
instant at which that probe itself completed or failed (`datetime.now(ist)`
inside `query_ntp_server` / carried to `process_response`), one per probe —
not a single shared cycle-start instant. -/
theorem sample_timestamp_is_probe_completion (ps : List ProbeOutcome) :
    (cycleAppends ps).map Sample.timestamp = ps.map ProbeOutcome.now := by
  induction ps with
  | nil => rfl
  | cons p rest ih =>
      have hstep : (probeAppends p).map Sample.timestamp = [p.now] := by
        rw [probeAppends_eq]
        cases h : p.resp <;> simp [errorSample, onlineSample]
      calc (cycleAppends (p :: rest)).map Sample.timestamp
          = (probeAppends p).map Sample.timestamp ++
              (cycleAppends rest).map Sample.timestamp := by
            simp [cycleAppends, List.flatMap_cons]
        _ = (p :: rest).map ProbeOutcome.now := by rw [hstep, ih]; rfl

/-- `sleep_time = max(0, 300 - elapsed)` in seconds
(update.py lines 185-186). -/
def sleep_time (elapsed : ℚ) : ℚ := max 0 (300 - elapsed)

/-- Spec-side formula: "sleep for `max(0, targetIntervalMs - elapsed)`"
with `targetIntervalMs = 300000` ms (spec §4.4), elapsed in milliseconds. -/
def specSleepMs (elapsedMs : ℚ) : ℚ := max 0 (300000 - elapsedMs)

/-- C8: the scheduler's sleep (in ms) is `max(0, 300000 - elapsedMs)`, and
whenever the cycle took at least the 300000 ms target interval the sleep is
exactly zero. -/
theorem scheduler_sleep_formula :
    (∀ elapsed : ℚ, sleep_time elapsed * 1000 = specSleepMs (elapsed * 1000)) ∧
    (∀ elapsed : ℚ, 300000 ≤ elapsed * 1000 → sleep_time elapsed = 0) := by
  constructor
  · intro e
    rw [sleep_time, specSleepMs, max_mul_of_nonneg _ _ (by norm_num : (0 : ℚ) ≤ 1000)]
    norm_num [sub_mul]
  · intro e h
    rw [sleep_time, max_eq_left]
    linarith

/-- Witness for C8: a 100 s cycle sleeps 200000 ms by the formula; a 400 s
cycle sleeps exactly zero. -/
theorem scheduler_sleep_formula_witness :
    sleep_time 100 * 1000 = specSleepMs (100 * 1000) ∧ sleep_time 400 = 0 :=
  ⟨scheduler_sleep_formula.1 100, scheduler_sleep_formula.2 400 (by norm_num)⟩

end NtpMon

namespace NtpMon

/-- One stored row of `ntp_data`: a `Sample` plus the AUTOINCREMENT primary
key `id` (column 0 of the schema, update.py line 54). -/
structure Row extends Sample where
  id : ℕ
  deriving DecidableEq, Repr

/-- The maximum stored id among the rows of one server — the value of the
correlated subquery `SELECT MAX(t2.id) FROM ntp_data t2 WHERE t2.server =
t1.server` (update.py lines 214-216), with SQL's `MAX` over an empty set
not arising because the outer row itself always qualifies. -/
def maxServerId (db : List Row) (s : String) : ℕ :=
  ((db.filter fun r => r.server == s).map Row.id).foldr max 0

/-- The row set of the `/api/realtime` SELECT (update.py lines 212-216):
the rows whose id is the maximum id stored for their server. -/
def latestRows (db : List Row) : List Row :=
  db.filter fun r => r.id == maxServerId db r.server

/-- The curated display order of `/api/realtime`
(update.py lines 236-252). -/
def preferred_order : List String :=
  ["14.139.60.103",
   "14.139.60.106",
   "14.139.60.107",
   "time.nplindia.in",
   "time.nplindia.org",
   "samay1.nic.in",
   "samay2.nic.in",
   "time.nist.gov",
   "pool.ntp.org",
   "time.windows.com",
   "time.google.com",
   "asia.pool.ntp.org",
   "uk.pool.ntp.org",
   "157.20.66.8",
   "157.20.67.8"]

/-- The sort key of `/api/realtime`:
`preferred_order.index(x['server']) if x['server'] in preferred_order else
999` (update.py line 255). -/
def orderKey (s : String) : ℕ :=
  if s ∈ preferred_order then preferred_order.indexOf s else 999

/-- One serialized record of `/api/realtime` (update.py lines 223-233):
the row's fields except `id` (row[0]) and `stratum` (row[7]); the
3-decimal fixed formatting of the numeric fields is modelled by rounding
to 3 decimals. -/
structure ApiRecord where
  timestamp : String
  server : String
  offset_ms : ℚ
  delay_ms : ℚ
  root_delay_ms : ℚ
  root_dispersion_ms : ℚ
  response_time_ms : ℚ
  precision_ms : ℚ
  status : String
  deriving DecidableEq, Repr

/-- `f"{v:.3f}"` modelled as rounding to 3 decimal places. -/
def fmt3 (x : ℚ) : ℚ := ((round (x * 1000) : ℤ) : ℚ) / 1000

/-- The dict built for one row by `/api/realtime`
(update.py lines 223-233). -/
def realtimeRecord (r : Row) : ApiRecord :=
  ⟨r.timestamp, r.server, fmt3 r.offset_ms, fmt3 r.delay_ms,
    fmt3 r.root_delay_ms, fmt3 r.root_dispersion_ms,
    fmt3 r.response_time_ms, fmt3 r.precision_ms, r.status⟩

/-- The dict built for one row by `/api/history`
(update.py lines 277-287): the same shape as the realtime record. -/
def historyRecord (r : Row) : ApiRecord :=
  ⟨r.timestamp, r.server, fmt3 r.offset_ms, fmt3 r.delay_ms,
    fmt3 r.root_delay_ms, fmt3 r.root_dispersion_ms,
    fmt3 r.response_time_ms, fmt3 r.precision_ms, r.status⟩

/-- The comparison of `data.sort(key=...)` (update.py line 255): by the
curated-order key of the record's server. -/
def recLe (a b : ApiRecord) : Prop := orderKey a.server ≤ orderKey b.server

instance : DecidableRel recLe := fun a b =>
  inferInstanceAs (Decidable (orderKey a.server ≤ orderKey b.server))

instance : IsTotal ApiRecord recLe := ⟨fun x y => Nat.le_total (orderKey x.server) (orderKey y.server)⟩

instance : IsTrans ApiRecord recLe := ⟨fun _ _ _ => Nat.le_trans⟩

/-- `/api/realtime` (update.py lines 206-257): serialize the latest row per
server, then stable-sort by the curated order (Python's stable `sort`
modelled by the stable `insertionSort`). -/
def get_realtime_data (db : List Row) : List ApiRecord :=
  ((latestRows db).map realtimeRecord).insertionSort recLe

/-- The comparison of `ORDER BY timestamp DESC` (update.py line 271). -/
def histLe (a b : Row) : Prop := b.timestamp ≤ a.timestamp

instance : DecidableRel histLe := fun a b =>
  inferInstanceAs (Decidable (b.timestamp ≤ a.timestamp))

/-- `/api/history` (update.py lines 265-288): the rows of the requested
server, newest first, limited to 10, serialized. -/
def get_history (db : List Row) (server : String) : List ApiRecord :=
  ((((db.filter fun r => r.server == server).insertionSort histLe).take 10).map
    historyRecord)

end NtpMon

namespace NtpMon

/-- Replace the stored `stratum` column of a row, keeping everything
else. -/
def setStratum (st : ℤ) (r : Row) : Row := { r with stratum := st }

theorem setStratum_server (st : ℤ) (r : Row) :
    (setStratum st r).server = r.server := rfl

theorem setStratum_id (st : ℤ) (r : Row) : (setStratum st r).id = r.id := rfl

/-- Filtering by server commutes with a stratum rewrite. -/
theorem filter_server_map_setStratum (db : List Row) (s : String) (st : ℤ) :
    (db.map (setStratum st)).filter (fun r => r.server == s) =
      (db.filter fun r => r.server == s).map (setStratum st) := by
  rw [List.filter_map]
  simp only [Function.comp_def, setStratum_server]

/-- The per-server maximum id ignores the stratum column. -/
theorem maxServerId_map_setStratum (db : List Row) (s : String) (st : ℤ) :
    maxServerId (db.map (setStratum st)) s = maxServerId db s := by
  unfold maxServerId
  rw [filter_server_map_setStratum, List.map_map]
  rfl

/-- The realtime row selection ignores the stratum column. -/
theorem latestRows_map_setStratum (db : List Row) (st : ℤ) :
    latestRows (db.map (setStratum st)) = (latestRows db).map (setStratum st) := by
  unfold latestRows
  rw [List.filter_map]
  simp only [Function.comp_def, setStratum_id, setStratum_server,
    maxServerId_map_setStratum]

/-- C10: both API endpoints omit the stored stratum column (row index 7)
from every returned record — the serialized record of a row is unchanged
when its stratum is replaced, and both endpoints return identical output
on a store whose stratum column has been rewritten arbitrarily. -/
theorem api_endpoints_omit_stratum :
    (∀ (r : Row) (st : ℤ), realtimeRecord (setStratum st r) = realtimeRecord r) ∧
    (∀ (r : Row) (st : ℤ), historyRecord (setStratum st r) = historyRecord r) ∧
    (∀ (db : List Row) (st : ℤ),
        get_realtime_data (db.map (setStratum st)) = get_realtime_data db) ∧
    (∀ (db : List Row) (s : String) (st : ℤ),
        get_history (db.map (setStratum st)) s = get_history db s) := by
  refine ⟨fun r st => rfl, fun r st => rfl, fun db st => ?_, fun db s st => ?_⟩
  · unfold get_realtime_data
    rw [latestRows_map_setStratum, List.map_map]
    rfl
  · unfold get_history
    rw [filter_server_map_setStratum,
      ← List.map_insertionSort histLe histLe (setStratum st) _
        (fun a _ b _ => Iff.rfl),
      ← List.map_take, List.map_map]
    rfl

end NtpMon

namespace NtpMon

/-- `foldr max 0` attains a member on a nonempty list of naturals. -/
theorem foldr_max_mem (l : List ℕ) (h : l ≠ []) : l.foldr max 0 ∈ l := by
  induction l with
  | nil => exact absurd rfl h
  | cons a rest ih =>
      rcases max_choice a (rest.foldr max 0) with hm | hm
      · simp only [List.foldr_cons, hm]
        exact List.mem_cons_self a rest
      · cases rest with
        | nil => simp
        | cons b rest' =>
            simp only [List.foldr_cons] at hm ⊢
            rw [hm]
            exact List.mem_cons_of_mem a (ih (by simp))

/-- Membership in the realtime row selection. -/
theorem mem_latestRows {db : List Row} {r : Row} :
    r ∈ latestRows db ↔ r ∈ db ∧ r.id = maxServerId db r.server := by
  simp [latestRows, List.mem_filter]

/-- A server with a key no larger than a recognized server's key is itself
recognized (the key of an unknown server is 999, above every curated
index). -/
theorem orderKey_le_known {a b : String} (h : orderKey a ≤ orderKey b)
    (hb : b ∈ preferred_order) : a ∈ preferred_order := by
  by_contra ha
  have hka : orderKey a = 999 := by rw [orderKey, if_neg ha]
  have hkb : orderKey b < 15 := by
    rw [orderKey, if_pos hb]
    have hlt := List.indexOf_lt_length.mpr hb
    have hlen : preferred_order.length = 15 := rfl
    omega
  omega

end NtpMon

namespace NtpMon

/-- C9: on a store with distinct row ids (the AUTOINCREMENT primary key),
`/api/realtime` returns exactly one record per distinct stored server; each
returned record serializes a stored row whose id is the maximum id for its
server; and the output is sorted by the curated display key, so a record of
an unrecognized server never precedes one of a recognized server. -/
theorem realtime_latest_per_server (db : List Row)
    (hids : (db.map Row.id).Nodup) :
    (∀ s : String, s ∈ db.map (fun r => r.server) →
        ((get_realtime_data db).filter fun rec => rec.server == s).length = 1) ∧
    (∀ rec ∈ get_realtime_data db, ∃ r, r ∈ db ∧ rec = realtimeRecord r ∧
        r.id = maxServerId db r.server) ∧
    List.Pairwise recLe (get_realtime_data db) ∧
    List.Pairwise (fun a b => b.server ∈ preferred_order →
        a.server ∈ preferred_order) (get_realtime_data db) := by
  refine ⟨fun s hs => ?_, fun rec hrec => ?_, ?_, ?_⟩
  · have hperm := List.perm_insertionSort recLe ((latestRows db).map realtimeRecord)
    rw [get_realtime_data, ← List.countP_eq_length_filter, hperm.countP_eq,
      List.countP_map]
    show List.countP (fun r => r.server == s) (latestRows db) = 1
    unfold latestRows
    rw [List.countP_filter]
    have hcongr : ∀ r ∈ db,
        ((r.server == s) && (r.id == maxServerId db r.server)) ↔
          ((r.id == maxServerId db s) && (r.server == s)) := by
      intro r _
      by_cases h : r.server = s
      · simp [h]
      · simp [h]
    rw [List.countP_congr hcongr, ← List.countP_filter]
    have hcount : List.countP (fun r => r.id == maxServerId db s)
        (db.filter fun r => r.server == s) =
        List.count (maxServerId db s)
          ((db.filter fun r => r.server == s).map Row.id) := by
      rw [List.count_eq_countP, List.countP_map]
      rfl
    rw [hcount]
    obtain ⟨r, hr, hrs⟩ := List.mem_map.mp hs
    have hrS : r ∈ db.filter fun x => x.server == s :=
      List.mem_filter.mpr ⟨hr, by simp [hrs]⟩
    have hSne : ((db.filter fun x => x.server == s).map Row.id) ≠ [] :=
      List.ne_nil_of_mem (List.mem_map_of_mem Row.id hrS)
    have hmmem : maxServerId db s ∈
        ((db.filter fun x => x.server == s).map Row.id) :=
      foldr_max_mem _ hSne
    have hnd : (((db.filter fun x => x.server == s).map Row.id)).Nodup :=
      ((List.filter_sublist db).map Row.id).nodup hids
    have hle := List.nodup_iff_count_le_one.mp hnd (maxServerId db s)
    have hge := List.count_pos_iff.mpr hmmem
    omega
  · rw [get_realtime_data, List.mem_insertionSort] at hrec
    obtain ⟨r, hrl, hrr⟩ := List.mem_map.mp hrec
    exact ⟨r, (mem_latestRows.mp hrl).1, hrr.symm, (mem_latestRows.mp hrl).2⟩
  · exact List.sorted_insertionSort recLe _
  · exact (List.sorted_insertionSort recLe _).imp
      fun h hb => orderKey_le_known h hb

/-- A three-row store: two rows for `"time.google.com"` (ids 1 and 2) and
one for a server outside the curated list. -/
def realtimeWitnessDb : List Row :=
  [⟨errorSample "t1" "time.google.com", 1⟩,
   ⟨errorSample "t2" "time.google.com", 2⟩,
   ⟨errorSample "t3" "unknown.example", 3⟩]

/-- Witness for C9: on the three-row store the realtime endpoint returns
exactly one record for `"time.google.com"`. -/
theorem realtime_latest_per_server_witness :
    ((get_realtime_data realtimeWitnessDb).filter
      fun rec => rec.server == "time.google.com").length = 1 :=
  (realtime_latest_per_server realtimeWitnessDb (by decide)).1
    "time.google.com" (by decide)

end NtpMon
